import Mathlib

/-
Verification of the logr rotating log writer (package logr, file logr.go).

Modelling conventions:
- Go strings are modelled as lists of characters (Str).
- Go byte slices are modelled as lists of naturals (Bytes).
- The filesystem is modelled as an association list from file names to
  contents (FS); the fallible OS primitives used by the code (close, stat,
  rename, temp-file creation, copy, remove, reopen) take their failure
  outcomes from an explicit oracle (RotateOracle), so the translated
  control flow of the Go code is exercised on every possible combination
  of external outcomes.
- time.Time is modelled as a calendar record (GoTime); the Go method
  Day() is the day-of-month field, Format is modelled for the reference
  tokens that appear in the layouts used by the code, and Truncate over
  24 hours zeroes the time-of-day fields.
- gzip compression (package compress/gzip, external to this repository)
  is an abstract function carried in the environment.
-/

namespace Logr

/-- Go strings, modelled as lists of characters. -/
abbrev Str := List Char

/-- Go byte slices, modelled as lists of naturals. -/
abbrev Bytes := List Nat

/-- Errors returned by OS and file operations. -/
inductive GoError where
  | ioErr : Str → GoError
deriving DecidableEq, Repr

/-- Model of time.Time: a calendar instant with minute granularity
(the code only observes year, month, day-of-month, hour and minute). -/
structure GoTime where
  year : Nat
  month : Nat
  day : Nat
  hour : Nat
  minute : Nat
deriving DecidableEq, Repr

/-- Model of Go t.Truncate(time.Hour * 24): rounds the instant down to the
start of its (UTC) day, zeroing the time-of-day fields. -/
def GoTime.truncate24h (t : GoTime) : GoTime :=
  { t with hour := 0, minute := 0 }

/-- Two-digit zero-padded decimal rendering, as used by the Go layout
tokens 01, 02, 15 and 04. -/
def pad2 (n : Nat) : Str :=
  if n < 10 then '0' :: Nat.toDigits 10 n else Nat.toDigits 10 n

/-- Model of Go time formatting for the reference-layout tokens used by
this code: 2006 is the year, 01 the month, 02 the day of month, 15 the
24-hour hour, 04 the minute; every other character is literal. -/
def formatAux (t : GoTime) : Str → Str
  | '2' :: '0' :: '0' :: '6' :: rest => Nat.toDigits 10 t.year ++ formatAux t rest
  | '0' :: '1' :: rest => pad2 t.month ++ formatAux t rest
  | '0' :: '2' :: rest => pad2 t.day ++ formatAux t rest
  | '1' :: '5' :: rest => pad2 t.hour ++ formatAux t rest
  | '0' :: '4' :: rest => pad2 t.minute ++ formatAux t rest
  | c :: rest => c :: formatAux t rest
  | [] => []

/-- Model of Go t.Format(layout). -/
def GoTime.format (t : GoTime) (layout : Str) : Str :=
  formatAux t layout

/-- Spec-side notion of the calendar day of an instant: the full
(year, month, day) date, used to state claims about calendar-day change. -/
def calendarDay (t : GoTime) : Nat × Nat × Nat :=
  (t.year, t.month, t.day)

/-- TimeFormat constant from logr.go: the default layout for the date and
time appended to each rotated log name. -/
def TimeFormat : Str := "2006-01-02_1504".toList

/-- Model of Go filepath.Ext scanning the path backwards from its end:
the first argument is the reversed prefix still to scan, the accumulator
holds the characters already scanned, in original order. Stops at a path
separator with an empty result, or at a dot, returning the dot and
everything after it. -/
def extAux : List Char → List Char → List Char
  | [], _ => []
  | c :: rest, acc =>
    if c = '/' then []
    else if c = '.' then c :: acc
    else extAux rest (c :: acc)

/-- Model of Go filepath.Ext: the suffix beginning at the final dot of the
final path element, empty when there is no dot. -/
def goExt (path : Str) : Str :=
  extAux path.reverse []

/-- The extension computed by extAux is a suffix of the scanned input. -/
theorem extAux_suffix :
    ∀ (l acc : List Char), ∃ pre : List Char, l.reverse ++ acc = pre ++ extAux l acc := by
  intro l
  induction l with
  | nil => intro acc; exact ⟨acc, by simp [extAux]⟩
  | cons c rest ih =>
    intro acc
    by_cases hsep : c = '/'
    · exact ⟨(c :: rest).reverse ++ acc, by simp [extAux, hsep]⟩
    · by_cases hdot : c = '.'
      · exact ⟨rest.reverse, by simp [extAux, hsep, hdot]⟩
      · obtain ⟨pre, hpre⟩ := ih (c :: acc)
        refine ⟨pre, ?_⟩
        simp only [extAux, if_neg hsep, if_neg hdot]
        calc (c :: rest).reverse ++ acc = rest.reverse ++ (c :: acc) := by simp
        _ = pre ++ extAux rest (c :: acc) := hpre

/-- goExt returns a suffix of the path. -/
theorem goExt_suffix (path : Str) : ∃ pre : List Char, path = pre ++ goExt path := by
  obtain ⟨pre, hpre⟩ := extAux_suffix path.reverse []
  exact ⟨pre, by simpa [goExt] using hpre⟩

/-- RotatingWriter from logr.go, without the mutex and the file handle
(the handle is represented by the file name inside the filesystem model).
The Go field named prefix is called prefixMode here. -/
structure RotatingWriter where
  filename : Str
  currentSize : Int
  startDate : GoTime
  timeFormat : Str
  prefixMode : Bool
  daily : Bool
  compress : Bool
  maxSize : Int
deriving DecidableEq, Repr

/-- makeDestName from logr.go: the destination name of the rotated file,
built from filename, startDate, timeFormat and the prefix flag. -/
def RotatingWriter.makeDestName (w : RotatingWriter) : Str :=
  let tf := if w.timeFormat ≠ [] then w.timeFormat else TimeFormat
  if w.prefixMode then
    let ext := goExt w.filename
    let name := w.filename.take (w.filename.length - ext.length)
    name ++ '.' :: w.startDate.format tf ++ ext
  else
    w.filename ++ '.' :: w.startDate.format tf

/-- Daily setter from logr.go (field update only; the mutex is not modelled). -/
def RotatingWriter.Daily (w : RotatingWriter) : RotatingWriter :=
  { w with daily := true }

/-- MaxSize setter from logr.go. -/
def RotatingWriter.MaxSize (w : RotatingWriter) (s : Int) : RotatingWriter :=
  { w with maxSize := s }

/-- TimeFormat setter from logr.go. -/
def RotatingWriter.TimeFormat (w : RotatingWriter) (s : Str) : RotatingWriter :=
  { w with timeFormat := s }

/-- Prefix setter from logr.go. -/
def RotatingWriter.Prefix (w : RotatingWriter) : RotatingWriter :=
  { w with prefixMode := true }

/-- Filesystem model: an association list from file names to contents. -/
structure FS where
  files : List (Str × Bytes)
deriving DecidableEq, Repr

/-- Lookup of the first entry with the given key. -/
def lookupEntries : List (Str × Bytes) → Str → Option Bytes
  | [], _ => none
  | e :: rest, n => if e.1 = n then some e.2 else lookupEntries rest n

/-- Content of the file with the given name, if present. -/
def FS.lookupFile (fs : FS) (n : Str) : Option Bytes :=
  lookupEntries fs.files n

/-- Drop every entry with the given key. -/
def eraseEntries : List (Str × Bytes) → Str → List (Str × Bytes)
  | [], _ => []
  | e :: rest, n => if e.1 = n then eraseEntries rest n else e :: eraseEntries rest n

/-- Create or overwrite the file with the given name. -/
def FS.setFile (fs : FS) (n : Str) (c : Bytes) : FS :=
  ⟨(n, c) :: eraseEntries fs.files n⟩

/-- Delete the file with the given name. -/
def FS.removeFile (fs : FS) (n : Str) : FS :=
  ⟨eraseEntries fs.files n⟩

theorem lookupEntries_erase_self (l : List (Str × Bytes)) (n : Str) :
    lookupEntries (eraseEntries l n) n = none := by
  induction l with
  | nil => simp [eraseEntries, lookupEntries]
  | cons e rest ih =>
    by_cases h : e.1 = n
    · simpa [eraseEntries, h] using ih
    · simpa [eraseEntries, h, lookupEntries] using ih

theorem lookupEntries_erase_ne (l : List (Str × Bytes)) (n m : Str) (h : m ≠ n) :
    lookupEntries (eraseEntries l n) m = lookupEntries l m := by
  induction l with
  | nil => rfl
  | cons e rest ih =>
    by_cases he : e.1 = n
    · have hem : e.1 ≠ m := fun hc => h (hc ▸ he)
      simp [eraseEntries, he, lookupEntries, hem, ih, Ne.symm h]
    · by_cases hem : e.1 = m
      · simp [eraseEntries, he, lookupEntries, hem, h]
      · simp [eraseEntries, he, lookupEntries, hem, ih]

@[simp] theorem lookupFile_setFile_self (fs : FS) (n : Str) (c : Bytes) :
    (fs.setFile n c).lookupFile n = some c := by
  simp [FS.setFile, FS.lookupFile, lookupEntries]

theorem lookupFile_setFile_ne (fs : FS) (n m : Str) (c : Bytes) (h : m ≠ n) :
    (fs.setFile n c).lookupFile m = fs.lookupFile m := by
  have := lookupEntries_erase_ne fs.files n m h
  simp [FS.setFile, FS.lookupFile, lookupEntries, Ne.symm h, this]

@[simp] theorem lookupFile_removeFile_self (fs : FS) (n : Str) :
    (fs.removeFile n).lookupFile n = none := by
  simpa [FS.removeFile, FS.lookupFile] using lookupEntries_erase_self fs.files n

theorem lookupFile_removeFile_ne (fs : FS) (n m : Str) (h : m ≠ n) :
    (fs.removeFile n).lookupFile m = fs.lookupFile m := by
  simpa [FS.removeFile, FS.lookupFile] using lookupEntries_erase_ne fs.files n m h

/-- Open flags used by os.OpenFile in the code: O_RDWR, O_APPEND, O_CREATE. -/
structure OpenFlags where
  rdwr : Bool
  append : Bool
  create : Bool
deriving DecidableEq, Repr

/-- The error returned by the OS when opening a missing path without O_CREATE. -/
def enoent : GoError := .ioErr "no such file or directory".toList

/-- Model of os.OpenFile over the FS model: succeeds when the file exists;
when it does not exist it is created empty exactly when the O_CREATE flag
is passed, and the open fails with enoent otherwise. -/
def osOpenFile (fs : FS) (name : Str) (flags : OpenFlags) : Except GoError FS :=
  match fs.lookupFile name with
  | some _ => .ok fs
  | none =>
    if flags.create then .ok (fs.setFile name [])
    else .error enoent

/-- The flags NewWriter passes to os.OpenFile: O_RDWR together with
O_APPEND, and no O_CREATE. -/
def newWriterFlags : OpenFlags := { rdwr := true, append := true, create := false }

/-- The stat error returned when the size of the adopted file cannot be
read (in the FS model: the name is absent from the filesystem). -/
def statFailed : GoError := .ioErr "stat failed".toList

/-- NewWriterFromFile from logr.go: adopt an open handle (identified by
its name), read the current size from the filesystem (readCurrentSize),
initialize startDate to the construction time and maxSize to -1. -/
def NewWriterFromFile (now : GoTime) (fs : FS) (fname : Str) :
    Except GoError (RotatingWriter × FS) :=
  match fs.lookupFile fname with
  | none => .error statFailed
  | some content =>
      .ok ({ filename := fname
             currentSize := Int.ofNat content.length
             startDate := now
             timeFormat := []
             prefixMode := false
             daily := false
             compress := false
             maxSize := -1 }, fs)

/-- NewWriter from logr.go: open the path with O_RDWR and O_APPEND (and
permission 0600), then delegate to NewWriterFromFile. -/
def NewWriter (now : GoTime) (fs : FS) (fname : Str) :
    Except GoError (RotatingWriter × FS) :=
  match osOpenFile fs fname newWriterFlags with
  | .error e => .error e
  | .ok fs1 => NewWriterFromFile now fs1 fname

/-- Outcome of a Go function call that may panic at runtime. -/
inductive GoOutcome (α : Type) where
  | ret : α → GoOutcome α
  | panicked : GoOutcome α
deriving DecidableEq, Repr

/-- NewWriterWithCompression from logr.go. The Go body is
w, err := NewWriter(filename); w.compress = true; return w, err
so when NewWriter fails the returned writer pointer is nil and the field
assignment dereferences a nil pointer, which panics at runtime. -/
def NewWriterWithCompression (now : GoTime) (fs : FS) (fname : Str) :
    GoOutcome (Except GoError (RotatingWriter × FS)) :=
  match NewWriter now fs fname with
  | .error _ => GoOutcome.panicked
  | .ok (w, fs1) => GoOutcome.ret (.ok ({ w with compress := true }, fs1))

/-- NewWriterFromFileWithCompression from logr.go; same nil-dereference
panic as NewWriterWithCompression when the base constructor fails. -/
def NewWriterFromFileWithCompression (now : GoTime) (fs : FS) (fname : Str) :
    GoOutcome (Except GoError (RotatingWriter × FS)) :=
  match NewWriterFromFile now fs fname with
  | .error _ => GoOutcome.panicked
  | .ok (w, fs1) => GoOutcome.ret (.ok ({ w with compress := true }, fs1))

/-- Failure outcomes for every fallible OS primitive reached from one
Write call: none means the primitive succeeds, some e means it fails
with error e. -/
structure RotateOracle where
  closeErr : Option GoError
  statErr : Option GoError
  renameErr : Option GoError
  openDestErr : Option GoError
  tmpFileErr : Option GoError
  copyErr : Option GoError
  gzRenameErr : Option GoError
  removeErr : Option GoError
  reopenErr : Option GoError
deriving DecidableEq, Repr

/-- The oracle in which every primitive succeeds. -/
def noErr : RotateOracle :=
  { closeErr := none, statErr := none, renameErr := none, openDestErr := none
    tmpFileErr := none, copyErr := none, gzRenameErr := none, removeErr := none
    reopenErr := none }

/-- Environment of one Write call: the wall-clock instants returned by
the two time.Now calls, the oracle for the fallible OS primitives, the
gzip compression function, the name of the temporary file created in the
system temp directory, and the byte count and error reported by the
underlying file write. -/
structure Env where
  now : GoTime
  rotateNow : GoTime
  oracle : RotateOracle
  gz : Bytes → Bytes
  tmpName : Str
  writeResult : Nat × Option GoError

/-- Combined state of the writer and the filesystem. -/
structure WState where
  w : RotatingWriter
  fs : FS

/-- The suffix appended to the rotated name for the compressed artifact. -/
def gzSuffix : Str := ".gz".toList

/-- compressFile from logr.go: open the rotated file, compress it through
gzip into a temporary file in the system temp directory, then rename the
temporary file onto destName plus the .gz suffix. On the failure of the
copy step the partially written temporary file is not tracked. -/
def compressFile (env : Env) (s : WState) (destName : Str) : WState × Option GoError :=
  match env.oracle.openDestErr with
  | some e => (s, some e)
  | none =>
  match env.oracle.tmpFileErr with
  | some e => (s, some e)
  | none =>
  match env.oracle.copyErr with
  | some e => (s, some e)
  | none =>
    let content := (s.fs.lookupFile destName).getD []
    let fs1 := s.fs.setFile env.tmpName (env.gz content)
    match env.oracle.gzRenameErr with
    | some e => (⟨s.w, fs1⟩, some e)
    | none =>
      (⟨s.w, (fs1.removeFile env.tmpName).setFile (destName ++ gzSuffix) (env.gz content)⟩,
       none)

/-- The compression block inside rotate (logr.go lines 321 to 332): when
compression is enabled, run compressFile and then, only when it
succeeded, remove the uncompressed rotated file. -/
def compressBlock (env : Env) (s : WState) (destName : Str) : WState × Option GoError :=
  if s.w.compress then
    match compressFile env s destName with
    | (s2, some e) => (s2, some e)
    | (s2, none) =>
      match env.oracle.removeErr with
      | some e => (s2, some e)
      | none => (⟨s2.w, s2.fs.removeFile destName⟩, none)
  else (s, none)

/-- Tail of rotate after the successful rename (logr.go lines 321 to
347): optional compression, the startDate update to the current instant
truncated over 24 hours, and the reopen of a fresh active file with
O_RDWR and O_CREATE. Split out of rotate for proof modularity. -/
def rotateAfterRename (env : Env) (s1 : WState) (destName : Str) : WState × Option GoError :=
  match compressBlock env s1 destName with
  | (s2, some e) => (s2, some e)
  | (s2, none) =>
    let s3 : WState := ⟨{ s2.w with startDate := env.rotateNow.truncate24h }, s2.fs⟩
    match env.oracle.reopenErr with
    | some e => (s3, some e)
    | none =>
      let fs4 := if (s3.fs.lookupFile s3.w.filename).isSome then s3.fs
                 else s3.fs.setFile s3.w.filename []
      (⟨{ s3.w with currentSize := 0 }, fs4⟩, none)

/-- rotate from logr.go: close the active file, stat the destination
name (surfacing any error other than not-exist), rename the active file
onto the destination name, then run rotateAfterRename. On an early
failure the mutations already performed persist, exactly as in the Go
code. -/
def rotate (env : Env) (s : WState) : WState × Option GoError :=
  match env.oracle.closeErr with
  | some e => (s, some e)
  | none =>
  match env.oracle.statErr with
  | some e => (s, some e)
  | none =>
  match env.oracle.renameErr with
  | some e => (s, some e)
  | none =>
    let destName := s.w.makeDestName
    let content := (s.fs.lookupFile s.w.filename).getD []
    rotateAfterRename env
      ⟨s.w, (s.fs.removeFile s.w.filename).setFile destName content⟩ destName

/-- The daily trigger condition in Write: daily mode is on and the
day-of-month of now differs from the day-of-month of startDate. -/
def dailyTriggered (env : Env) (w : RotatingWriter) : Bool :=
  w.daily && decide (env.now.day ≠ w.startDate.day)

/-- The daily step of Write: rotate when the daily trigger fires. -/
def dailyStep (env : Env) (s : WState) : WState × Option GoError :=
  if dailyTriggered env s.w then rotate env s else (s, none)

/-- The size trigger condition in Write: maxSize is greater than -1 and
currentSize has reached maxSize. -/
def sizeTriggered (w : RotatingWriter) : Bool :=
  decide ((-1 : Int) < w.maxSize) && decide (w.maxSize ≤ w.currentSize)

/-- The size step of Write: rotate when the size trigger fires. -/
def sizeStep (env : Env) (s : WState) : WState × Option GoError :=
  if sizeTriggered s.w then rotate env s else (s, none)

/-- Observable events of one Write call. -/
inductive Event where
  | dailyRotate
  | sizeRotate
  | wrotePayload : Bytes → Event
deriving DecidableEq, Repr

/-- Write from logr.go: run the daily check, then the size check, each
returning -1 with the rotation error when its rotation fails; then write
the buffer to the active file and add the reported byte count to
currentSize unconditionally, returning the count and error of the
underlying write verbatim. The event list records which rotations were
invoked and whether the payload write was reached. -/
def Write (env : Env) (s : WState) (b : Bytes) :
    (Int × Option GoError) × WState × List Event :=
  let d := dailyStep env s
  let tr1 : List Event := if dailyTriggered env s.w then [Event.dailyRotate] else []
  match d.2 with
  | some e => ((-1, some e), d.1, tr1)
  | none =>
    let z := sizeStep env d.1
    let tr2 := tr1 ++ (if sizeTriggered d.1.w then [Event.sizeRotate] else [])
    match z.2 with
    | some e => ((-1, some e), z.1, tr2)
    | none =>
      let n := env.writeResult.1
      let werr := env.writeResult.2
      let old := (z.1.fs.lookupFile z.1.w.filename).getD []
      ((Int.ofNat n, werr),
       ⟨{ z.1.w with currentSize := z.1.w.currentSize + Int.ofNat n },
        z.1.fs.setFile z.1.w.filename (old ++ b.take n)⟩,
       tr2 ++ [Event.wrotePayload b])

/-- compressFile never changes the writer record. -/
theorem compressFile_w (env : Env) (s : WState) (d : Str) :
    (compressFile env s d).1.w = s.w := by
  rcases h1 : env.oracle.openDestErr with _ | e1 <;>
  rcases h2 : env.oracle.tmpFileErr with _ | e2 <;>
  rcases h3 : env.oracle.copyErr with _ | e3 <;>
  rcases h4 : env.oracle.gzRenameErr with _ | e4 <;>
  simp [compressFile, h1, h2, h3, h4]

/-- compressBlock never changes the writer record. -/
theorem compressBlock_w (env : Env) (s : WState) (d : Str) :
    (compressBlock env s d).1.w = s.w := by
  have hw := compressFile_w env s d
  cases hcomp : s.w.compress
  · simp [compressBlock, hcomp]
  · rcases hcf : compressFile env s d with ⟨s2, e2⟩
    rw [hcf] at hw
    cases e2 with
    | some e => simpa [compressBlock, hcomp, hcf] using hw
    | none =>
      rcases hr : env.oracle.removeErr with _ | e <;>
        simpa [compressBlock, hcomp, hcf, hr] using hw

/-- rotateAfterRename preserves the policy fields and the file name of
the writer, and on success it zeroes currentSize and sets startDate to
the truncated rotation instant. -/
theorem rotateAfterRename_shape (env : Env) (s1 : WState) (d : Str) :
    (rotateAfterRename env s1 d).1.w.maxSize = s1.w.maxSize ∧
    (rotateAfterRename env s1 d).1.w.daily = s1.w.daily ∧
    (rotateAfterRename env s1 d).1.w.filename = s1.w.filename ∧
    (rotateAfterRename env s1 d).1.w.compress = s1.w.compress ∧
    (rotateAfterRename env s1 d).1.w.timeFormat = s1.w.timeFormat ∧
    (rotateAfterRename env s1 d).1.w.prefixMode = s1.w.prefixMode ∧
    ((rotateAfterRename env s1 d).2 = none →
      (rotateAfterRename env s1 d).1.w.currentSize = 0 ∧
      (rotateAfterRename env s1 d).1.w.startDate = env.rotateNow.truncate24h) := by
  have hw := compressBlock_w env s1 d
  rcases hcb : compressBlock env s1 d with ⟨s2, e2⟩
  rw [hcb] at hw
  have hw' : s2.w = s1.w := hw
  cases e2 with
  | some e => simp [rotateAfterRename, hcb, hw']
  | none =>
    rcases hr : env.oracle.reopenErr with _ | e <;>
      simp [rotateAfterRename, hcb, hr, hw']

/-- rotate preserves the policy fields and the file name of the writer,
and on success it zeroes currentSize and sets startDate to the truncated
rotation instant. -/
theorem rotate_shape (env : Env) (s : WState) :
    (rotate env s).1.w.maxSize = s.w.maxSize ∧
    (rotate env s).1.w.daily = s.w.daily ∧
    (rotate env s).1.w.filename = s.w.filename ∧
    (rotate env s).1.w.compress = s.w.compress ∧
    (rotate env s).1.w.timeFormat = s.w.timeFormat ∧
    (rotate env s).1.w.prefixMode = s.w.prefixMode ∧
    ((rotate env s).2 = none →
      (rotate env s).1.w.currentSize = 0 ∧
      (rotate env s).1.w.startDate = env.rotateNow.truncate24h) := by
  rcases h1 : env.oracle.closeErr with _ | e1
  · rcases h2 : env.oracle.statErr with _ | e2
    · rcases h3 : env.oracle.renameErr with _ | e3
      · have := rotateAfterRename_shape env
          ⟨s.w, (s.fs.removeFile s.w.filename).setFile s.w.makeDestName
            ((s.fs.lookupFile s.w.filename).getD [])⟩ s.w.makeDestName
        simpa [rotate, h1, h2, h3] using this
      · simp [rotate, h1, h2, h3]
    · simp [rotate, h1, h2]
  · simp [rotate, h1]

/-- Appending the .gz suffix changes the name. -/
theorem append_gzSuffix_ne (d : Str) : d ++ gzSuffix ≠ d := by
  intro h
  have := congrArg List.length h
  simp [gzSuffix, List.length_append] at this

/-- The state after the daily step keeps the policy fields of the
writer, and when the daily step succeeds after a triggered rotation the
current size has been reset to zero. -/
theorem dailyStep_shape (env : Env) (s : WState) :
    (dailyStep env s).1.w.maxSize = s.w.maxSize ∧
    ((dailyStep env s).2 = none → dailyTriggered env s.w = true →
      (dailyStep env s).1.w.currentSize = 0) := by
  cases ht : dailyTriggered env s.w
  · simp [dailyStep, ht]
  · have := rotate_shape env s
    refine ⟨by simpa [dailyStep, ht] using this.1, ?_⟩
    intro hnone _
    have h7 := this.2.2.2.2.2.2
    simp only [dailyStep, ht, if_true] at hnone ⊢
    exact (h7 hnone).1

/-
Concrete fixtures shared by witnesses and counterexamples.
-/

/-- A reference instant: 2024-03-07 15:30. -/
def t0 : GoTime := ⟨2024, 3, 7, 15, 30⟩

/-- A concrete write error. -/
def diskFull : GoError := .ioErr "disk full".toList

/-- A concrete injective stand-in for the gzip encoding. -/
def gzModel : Bytes → Bytes := fun b => 31 :: 139 :: b

/-- The empty filesystem. -/
def emptyFS : FS := ⟨[]⟩

/-- A writer with every policy off, on file app.log. -/
def plainWriter : RotatingWriter :=
  { filename := "app.log".toList, currentSize := 0, startDate := t0, timeFormat := []
    prefixMode := false, daily := false, compress := false, maxSize := -1 }

/-
Claim theorems.
-/

/-- C3: makeDestName returns filename dot formatted-startDate when prefix
is off, and base dot formatted-startDate ext when prefix is on, where
base and ext split filename at its extension (base concatenated with ext
restores filename), the pattern is timeFormat when non-empty and the
default pattern otherwise, and the default pattern renders
year-month-day underscore hour-minute. -/
theorem makeDestName_spec (w : RotatingWriter) :
    (w.filename.take (w.filename.length - (goExt w.filename).length) ++ goExt w.filename
        = w.filename)
    ∧ w.makeDestName =
        (if w.prefixMode then
          w.filename.take (w.filename.length - (goExt w.filename).length)
            ++ '.' :: w.startDate.format
                 (if w.timeFormat = [] then TimeFormat else w.timeFormat)
            ++ goExt w.filename
        else
          w.filename ++ '.' :: w.startDate.format
                 (if w.timeFormat = [] then TimeFormat else w.timeFormat))
    ∧ GoTime.format ⟨2024, 3, 7, 15, 30⟩ TimeFormat = "2024-03-07_1530".toList := by
  obtain ⟨pre, hpre⟩ := goExt_suffix w.filename
  have hlen : w.filename.length = pre.length + (goExt w.filename).length := by
    conv_lhs => rw [hpre]
    exact List.length_append _ _
  have htake : w.filename.take (w.filename.length - (goExt w.filename).length) = pre := by
    rw [hlen, Nat.add_sub_cancel]
    conv_lhs => rw [hpre]
    exact List.take_left _ _
  refine ⟨by rw [htake]; exact hpre.symm, ?_, by decide⟩
  by_cases htf : w.timeFormat = [] <;>
    cases hp : w.prefixMode <;>
      simp [RotatingWriter.makeDestName, htf, hp]

/-- C10: when the filename has no extension, prefix mode and suffix mode
produce the same destination name. -/
theorem makeDestName_no_ext (w : RotatingWriter) (h : goExt w.filename = []) :
    RotatingWriter.makeDestName { w with prefixMode := true } =
    RotatingWriter.makeDestName { w with prefixMode := false } := by
  simp [RotatingWriter.makeDestName, h]

/-- A writer on a file named logfile, with no extension. -/
def w0 : RotatingWriter := { plainWriter with filename := "logfile".toList }

/-- Witness for C10 at a concrete extensionless filename. -/
theorem makeDestName_no_ext_witness :
    goExt w0.filename = [] ∧
    RotatingWriter.makeDestName { w0 with prefixMode := true } =
      RotatingWriter.makeDestName { w0 with prefixMode := false } :=
  ⟨by decide, makeDestName_no_ext w0 (by decide)⟩

/-- State for the C2 counterexample: daily mode on, startDate on the
fifteenth of January. -/
def c2State : WState :=
  ⟨{ plainWriter with daily := true, startDate := ⟨2024, 1, 15, 0, 0⟩, currentSize := 1 },
   ⟨[("app.log".toList, [1])]⟩⟩

/-- Environment for the C2 counterexample: now is the fifteenth of
February, a month later but the same day of the month. -/
def c2Env : Env :=
  { now := ⟨2024, 2, 15, 3, 0⟩, rotateNow := ⟨2024, 2, 15, 3, 0⟩, oracle := noErr
    gz := gzModel, tmpName := "tmp0".toList, writeResult := (1, none) }

/-- C2 counterexample: with daily mode on, now falls on a different
calendar day than startDate (the month changed), yet the Write call
performs no daily rotation and leaves startDate unchanged, because the
code compares only the day of the month. -/
theorem write_daily_counterexample :
    c2State.w.daily = true ∧
    calendarDay c2Env.now ≠ calendarDay c2State.w.startDate ∧
    Event.dailyRotate ∉ (Write c2Env c2State [9]).2.2 ∧
    (Write c2Env c2State [9]).2.1.w.startDate = c2State.w.startDate := by decide

/-- C2 amended: when daily mode is enabled, a Write call rotates through
the daily check exactly when the day of the month of now differs from
the day of the month of startDate (a change of month or year with equal
day of month does not trigger). -/
theorem write_daily_trigger (env : Env) (s : WState) (b : Bytes) :
    Event.dailyRotate ∈ (Write env s b).2.2 ↔
      (s.w.daily = true ∧ env.now.day ≠ s.w.startDate.day) := by
  have hiff : (dailyTriggered env s.w = true) ↔
      (s.w.daily = true ∧ env.now.day ≠ s.w.startDate.day) := by
    simp [dailyTriggered]
  rw [← hiff]
  cases ht : dailyTriggered env s.w
  · rcases hD : dailyStep env s with ⟨s1, e1⟩
    cases e1 with
    | some e => simp [Write, hD, ht]
    | none =>
      cases hst : sizeTriggered s1.w <;>
        rcases hz : (sizeStep env s1).2 with _ | e2 <;>
          simp [Write, hD, ht, hst, hz]
  · rcases hD : dailyStep env s with ⟨s1, e1⟩
    cases e1 with
    | some e => simp [Write, hD, ht]
    | none =>
      cases hst : sizeTriggered s1.w <;>
        rcases hz : (sizeStep env s1).2 with _ | e2 <;>
          simp [Write, hD, ht, hst, hz]

/-- State for the C4 counterexample: a plain writer on an empty file. -/
def c4State : WState := ⟨plainWriter, ⟨[("app.log".toList, [])]⟩⟩

/-- Environment for the C4 counterexample: the underlying write reports
one byte written together with an error. -/
def c4Env : Env :=
  { now := t0, rotateNow := t0, oracle := noErr, gz := gzModel
    tmpName := "tmp0".toList, writeResult := (1, some diskFull) }

/-- C4 counterexample: the underlying write fails after a partial write
of one byte; the error is propagated, but currentSize moves from 0 to 1,
contradicting the claim that it keeps its pre-call value. -/
theorem write_error_counterexample :
    (Write c4Env c4State [7, 7]).1.2 = some diskFull ∧
    (Write c4Env c4State [7, 7]).2.1.w.currentSize ≠ c4State.w.currentSize := by decide

/-- C4 amended: when the underlying write fails the error is propagated
verbatim together with the reported count, and currentSize is increased
by the reported (possibly partial) byte count, so it keeps its pre-call
value exactly when that count is zero. -/
theorem write_error_propagation (env : Env) (s : WState) (b : Bytes) (n : Nat) (e : GoError)
    (hw : env.writeResult = (n, some e))
    (hd : dailyTriggered env s.w = false)
    (hz : sizeTriggered s.w = false) :
    (Write env s b).1 = (Int.ofNat n, some e) ∧
    (Write env s b).2.1.w.currentSize = s.w.currentSize + Int.ofNat n := by
  simp [Write, dailyStep, sizeStep, hd, hz, hw]

/-- Witness for C4 amended at the concrete partial-write input. -/
theorem write_error_propagation_witness :
    (Write c4Env c4State [7, 7]).1 = (Int.ofNat 1, some diskFull) ∧
    (Write c4Env c4State [7, 7]).2.1.w.currentSize = c4State.w.currentSize + Int.ofNat 1 :=
  write_error_propagation c4Env c4State [7, 7] 1 diskFull (by decide) (by decide) (by decide)

/-- C5: code bug in NewWriter. The open call passes O_RDWR and O_APPEND
but not O_CREATE, so on a path where no file exists NewWriter fails with
enoent and produces no writer, while the claim (and the doc comment of
the function) says the file is created; the same open with O_CREATE
added would have created the file. -/
theorem newWriter_no_create :
    NewWriter t0 emptyFS "app.log".toList = .error enoent ∧
    newWriterFlags.create = false ∧
    osOpenFile emptyFS "app.log".toList { newWriterFlags with create := true } =
      .ok (emptyFS.setFile "app.log".toList []) :=
  ⟨rfl, rfl, rfl⟩

/-- State for the C6 counterexample: daily mode off, a five-byte file. -/
def c6State : WState :=
  ⟨{ plainWriter with currentSize := 5, startDate := ⟨2024, 1, 1, 0, 0⟩ },
   ⟨[("app.log".toList, [1, 2, 3, 4, 5])]⟩⟩

/-- Environment for the C6 counterexample: the rotation happens at
15:30. -/
def c6Env : Env :=
  { now := t0, rotateNow := ⟨2024, 3, 7, 15, 30⟩, oracle := noErr, gz := gzModel
    tmpName := "tmp0".toList, writeResult := (0, none) }

/-- C6 counterexample: a successful rotation with daily mode off sets
startDate to the rotation instant truncated to midnight, not to the
exact rotation instant as the claim states for that case. -/
theorem rotate_startDate_counterexample :
    c6State.w.daily = false ∧
    (rotate c6Env c6State).2 = none ∧
    (rotate c6Env c6State).1.w.startDate ≠ c6Env.rotateNow ∧
    (rotate c6Env c6State).1.w.startDate = c6Env.rotateNow.truncate24h := by decide

/-- C6 amended: after every successful rotation startDate is the
rotation instant truncated to midnight, whether or not daily mode is
active; the next rotation computes its destination name from this new
startDate. -/
theorem rotate_startDate_truncated (env : Env) (s : WState)
    (h : (rotate env s).2 = none) :
    (rotate env s).1.w.startDate = env.rotateNow.truncate24h :=
  ((rotate_shape env s).2.2.2.2.2.2 h).2

/-- Witness for C6 amended at the concrete rotation. -/
theorem rotate_startDate_truncated_witness :
    (rotate c6Env c6State).1.w.startDate = c6Env.rotateNow.truncate24h :=
  rotate_startDate_truncated c6Env c6State (by decide)

/-- A filesystem holding a one-byte app.log. -/
def fsOne : FS := ⟨[("app.log".toList, [1])]⟩

/-- C8: code bug in the compression-variant constructors. On inputs
where the base constructor fails, the variant assigns the compress field
through a nil writer pointer and panics instead of returning the error;
on success it returns the base result with compress set to true. -/
theorem newWriterWithCompression_panics :
    NewWriter t0 emptyFS "app.log".toList = .error enoent ∧
    NewWriterWithCompression t0 emptyFS "app.log".toList = GoOutcome.panicked ∧
    NewWriterFromFile t0 emptyFS "app.log".toList = .error statFailed ∧
    NewWriterFromFileWithCompression t0 emptyFS "app.log".toList = GoOutcome.panicked ∧
    NewWriterWithCompression t0 fsOne "app.log".toList =
      GoOutcome.ret (.ok ({ plainWriter with currentSize := 1, compress := true }, fsOne)) :=
  ⟨rfl, rfl, rfl, rfl, rfl⟩

/-- C1: in a Write call whose daily step succeeded, the size check
rotates exactly when maxSize is at least zero and the post-daily-check
currentSize has reached maxSize; a negative maxSize never produces a
size rotation; and a successful daily rotation in the same call has
already reset currentSize to zero before the size check runs. -/
theorem write_size_trigger (env : Env) (s : WState) (b : Bytes) :
    ((dailyStep env s).2 = none → 0 ≤ s.w.maxSize →
      (Event.sizeRotate ∈ (Write env s b).2.2 ↔
        s.w.maxSize ≤ (dailyStep env s).1.w.currentSize))
    ∧ (s.w.maxSize < 0 → Event.sizeRotate ∉ (Write env s b).2.2)
    ∧ (dailyTriggered env s.w = true → (dailyStep env s).2 = none →
      (dailyStep env s).1.w.currentSize = 0) := by
  obtain ⟨hmax, hzero⟩ := dailyStep_shape env s
  refine ⟨?_, ?_, fun h1 h2 => hzero h2 h1⟩
  · intro hd hge
    rcases hD : dailyStep env s with ⟨s1, e1⟩
    rw [hD] at hd hmax
    obtain rfl : e1 = none := hd
    have hm : s1.w.maxSize = s.w.maxSize := hmax
    have htrig : sizeTriggered s1.w = true ↔ s.w.maxSize ≤ s1.w.currentSize := by
      simp only [sizeTriggered, hm, Bool.and_eq_true, decide_eq_true_eq]
      exact ⟨fun h => h.2, fun h => ⟨by omega, h⟩⟩
    show Event.sizeRotate ∈ (Write env s b).2.2 ↔ s.w.maxSize ≤ s1.w.currentSize
    rw [← htrig]
    cases hst : sizeTriggered s1.w <;>
      rcases hz : (sizeStep env s1).2 with _ | e2 <;>
        cases hdt : dailyTriggered env s.w <;>
          simp [Write, hD, hst, hz, hdt]
  · intro hneg
    rcases hD : dailyStep env s with ⟨s1, e1⟩
    rw [hD] at hmax
    have hm : s1.w.maxSize = s.w.maxSize := hmax
    have hlt : ¬((-1 : Int) < s.w.maxSize) := by omega
    have hst : sizeTriggered s1.w = false := by
      simp [sizeTriggered, hm, hlt]
    cases e1 with
    | some e =>
      cases hdt : dailyTriggered env s.w <;> simp [Write, hD, hdt]
    | none =>
      rcases hz : (sizeStep env s1).2 with _ | e2 <;>
        cases hdt : dailyTriggered env s.w <;>
          simp [Write, hD, hst, hz, hdt]

/-- State for the C1 witness: maxSize ten, current size twelve. -/
def c1State : WState :=
  ⟨{ plainWriter with currentSize := 12, maxSize := 10 },
   ⟨[("app.log".toList, List.replicate 12 255)]⟩⟩

/-- Environment for the C1 witness: every primitive succeeds. -/
def c1Env : Env :=
  { now := t0, rotateNow := t0, oracle := noErr, gz := gzModel
    tmpName := "tmp0".toList, writeResult := (2, none) }

/-- Witness for C1: with maxSize ten and currentSize twelve the size
check rotates. -/
theorem write_size_trigger_witness :
    Event.sizeRotate ∈ (Write c1Env c1State [1, 1]).2.2 :=
  ((write_size_trigger c1Env c1State [1, 1]).1 (by decide) (by decide)).mpr (by decide)

/-- C9: when a triggered rotation fails, whichever step failed, Write
returns -1 together with the rotation error and the payload write is
never performed. -/
theorem write_rotation_failure (env : Env) (s : WState) (b : Bytes) :
    (∀ e : GoError, (dailyStep env s).2 = some e →
      (Write env s b).1 = (-1, some e) ∧
      ∀ bs : Bytes, Event.wrotePayload bs ∉ (Write env s b).2.2)
    ∧ (∀ e : GoError, (dailyStep env s).2 = none →
        (sizeStep env (dailyStep env s).1).2 = some e →
      (Write env s b).1 = (-1, some e) ∧
      ∀ bs : Bytes, Event.wrotePayload bs ∉ (Write env s b).2.2) := by
  constructor
  · intro e hd
    rcases hD : dailyStep env s with ⟨s1, e1⟩
    rw [hD] at hd
    obtain rfl : e1 = some e := hd
    cases hdt : dailyTriggered env s.w <;> simp [Write, hD, hdt]
  · intro e hd hz
    rcases hD : dailyStep env s with ⟨s1, e1⟩
    rw [hD] at hd hz
    obtain rfl : e1 = none := hd
    have hz' : (sizeStep env s1).2 = some e := hz
    cases hdt : dailyTriggered env s.w <;>
      cases hst : sizeTriggered s1.w <;>
        simp [Write, hD, hz', hdt, hst]

/-- State for the C9 witness: daily mode on, startDate on the fifteenth. -/
def c9State : WState :=
  ⟨{ plainWriter with daily := true, startDate := ⟨2024, 1, 15, 0, 0⟩ },
   ⟨[("app.log".toList, [1])]⟩⟩

/-- Environment for the C9 witness: the next day has arrived and the
close of the active file fails. -/
def c9Env : Env :=
  { now := ⟨2024, 1, 16, 3, 0⟩, rotateNow := ⟨2024, 1, 16, 3, 0⟩
    oracle := { noErr with closeErr := some diskFull }, gz := gzModel
    tmpName := "tmp0".toList, writeResult := (1, none) }

/-- Witness for C9: the failed daily rotation makes Write return -1 with
the close error, and the payload is not written. -/
theorem write_rotation_failure_witness :
    (Write c9Env c9State [3]).1 = (-1, some diskFull) ∧
    Event.wrotePayload [3] ∉ (Write c9Env c9State [3]).2.2 := by
  have h := (write_rotation_failure c9Env c9State [3]).1 diskFull (by decide)
  exact ⟨h.1, h.2 [3]⟩

/-- C7: with compression enabled, a fully successful rotation leaves the
gzip of the prior content at the destination name with the .gz suffix
and removes the uncompressed rotated file; when the rename of the
compressed temporary file fails the uncompressed rotated file is still
present (removal happens only after a successful rename); and a failure
of any compression step aborts the rotation with that error. -/
theorem rotate_compression (env : Env) (s : WState) (c : Bytes)
    (hc : s.w.compress = true)
    (hf : s.fs.lookupFile s.w.filename = some c)
    (hox : env.oracle = noErr)
    (hd1 : s.w.makeDestName ≠ s.w.filename)
    (hd2 : s.w.makeDestName ++ gzSuffix ≠ s.w.filename)
    (ht : env.tmpName ≠ s.w.filename)
    (htd : env.tmpName ≠ s.w.makeDestName) :
    ((rotate env s).2 = none
      ∧ (rotate env s).1.fs.lookupFile (s.w.makeDestName ++ gzSuffix) = some (env.gz c)
      ∧ (rotate env s).1.fs.lookupFile s.w.makeDestName = none)
    ∧ (∀ e : GoError,
        (rotate { env with oracle := { noErr with gzRenameErr := some e } } s).2 = some e
        ∧ (rotate { env with oracle := { noErr with gzRenameErr := some e } } s).1.fs.lookupFile
            s.w.makeDestName = some c)
    ∧ (∀ e : GoError,
        (rotate { env with oracle := { noErr with openDestErr := some e } } s).2 = some e)
    ∧ (∀ e : GoError,
        (rotate { env with oracle := { noErr with tmpFileErr := some e } } s).2 = some e)
    ∧ (∀ e : GoError,
        (rotate { env with oracle := { noErr with copyErr := some e } } s).2 = some e)
    ∧ (∀ e : GoError,
        (rotate { env with oracle := { noErr with removeErr := some e } } s).2 = some e
        ∧ (rotate { env with oracle := { noErr with removeErr := some e } } s).1.fs.lookupFile
            s.w.makeDestName = some c) := by
  have hne1 : s.w.filename ≠ s.w.makeDestName := Ne.symm hd1
  have hne2 : s.w.filename ≠ s.w.makeDestName ++ gzSuffix := Ne.symm hd2
  have hne3 : s.w.filename ≠ env.tmpName := Ne.symm ht
  have hne4 : s.w.makeDestName ≠ env.tmpName := Ne.symm htd
  have hne5 : s.w.makeDestName ++ gzSuffix ≠ s.w.makeDestName := append_gzSuffix_ne _
  have hne6 : s.w.makeDestName ≠ s.w.makeDestName ++ gzSuffix := Ne.symm hne5
  refine ⟨?_, ?_, ?_, ?_, ?_, ?_⟩
  · simp [rotate, rotateAfterRename, compressBlock, compressFile, hox, noErr, hc, hf,
      lookupFile_setFile_ne, lookupFile_removeFile_ne,
      hd1, hd2, ht, htd, hne1, hne2, hne3, hne4, hne5, hne6]
  · intro e
    simp [rotate, rotateAfterRename, compressBlock, compressFile, noErr, hc, hf,
      lookupFile_setFile_ne, lookupFile_removeFile_ne,
      hd1, hd2, ht, htd, hne1, hne2, hne3, hne4, hne5, hne6]
  · intro e
    simp [rotate, rotateAfterRename, compressBlock, compressFile, noErr, hc]
  · intro e
    simp [rotate, rotateAfterRename, compressBlock, compressFile, noErr, hc]
  · intro e
    simp [rotate, rotateAfterRename, compressBlock, compressFile, noErr, hc]
  · intro e
    simp [rotate, rotateAfterRename, compressBlock, compressFile, noErr, hc, hf,
      lookupFile_setFile_ne, lookupFile_removeFile_ne,
      hd1, hd2, ht, htd, hne1, hne2, hne3, hne4, hne5, hne6]

/-- State for the C7 witness: compression on, app.log holds two bytes. -/
def c7State : WState :=
  ⟨{ plainWriter with compress := true, currentSize := 2, startDate := ⟨2024, 1, 2, 3, 4⟩ },
   ⟨[("app.log".toList, [1, 2])]⟩⟩

/-- Environment for the C7 witness: every primitive succeeds. -/
def c7Env : Env :=
  { now := t0, rotateNow := t0, oracle := noErr, gz := gzModel
    tmpName := "tmp0".toList, writeResult := (0, none) }

/-- Witness for C7 at a concrete compressing rotation. -/
theorem rotate_compression_witness :
    ((rotate c7Env c7State).2 = none
      ∧ (rotate c7Env c7State).1.fs.lookupFile (c7State.w.makeDestName ++ gzSuffix)
          = some (c7Env.gz [1, 2]))
    ∧ (rotate { c7Env with oracle := { noErr with gzRenameErr := some diskFull } } c7State).2
        = some diskFull := by
  have h := rotate_compression c7Env c7State [1, 2] (by decide) (by decide) rfl
    (by decide) (by decide) (by decide) (by decide)
  exact ⟨⟨h.1.1, h.1.2.1⟩, (h.2.1 diskFull).1⟩

end Logr
